import Mathlib

/-!
Verification development for the quiz-page pipeline repository
(`app.py`, `worker.py`, `handlers/advanced_handler.py`).

The Python source is shallowly embedded: pure string processing, the
format detector, the table normalizer, the instruction classifier, the
answer computer, the submission-target resolver and the orchestrator are
translated into executable Lean definitions.  External libraries
(requests, pandas parsers, pdfplumber, matplotlib, python-magic, the
Playwright origin evaluator and the Pearson-correlation routine of
pandas) are modelled as oracle parameters collected in a `Net`
structure; BeautifulSoup's parse of the page is modelled by a `Page`
structure holding the pieces of the document the handler reads
(body text, script bodies, the first form action, hyperlink targets,
pre/code blocks, and the tables `pandas.read_html` would return).
Machine floats are idealized as `ℚ` (exact arithmetic); `NaN` is
tracked explicitly where the code can produce it.
-/

/-! ## Basic string machinery (Python semantics) -/

/-- Characters Python's `str.strip()` removes (ASCII whitespace). -/
def isPyWs (c : Char) : Bool :=
  c == ' ' || c == '\t' || c == '\n' || c == '\r' || c == '\x0b' || c == '\x0c'

/-- Whether `list₁` is a prefix of `list₂` (exact characters). -/
def isPrefixL : List Char → List Char → Bool
  | [], _ => true
  | _ :: _, [] => false
  | a :: as, b :: bs => a == b && isPrefixL as bs

/-- Whether `pat` occurs as a contiguous sublist of `s` (Python's `in` on strings). -/
def isSubL (pat : List Char) : List Char → Bool
  | [] => pat.isEmpty
  | s@(_ :: t) => isPrefixL pat s || isSubL pat t

/-- Python `needle in hay` for strings. -/
def pyContains (hay needle : String) : Bool :=
  isSubL needle.toList hay.toList

/-- Python `str.lower()` (ASCII letters). -/
def pyLower (s : String) : String :=
  String.mk (s.toList.map Char.toLower)

/-- Python `str.strip()`: drop leading and trailing whitespace. -/
def pyStrip (s : String) : String :=
  String.mk (((s.toList.dropWhile isPyWs).reverse.dropWhile isPyWs).reverse)


/-- Python `str.startswith` (exact characters). -/
def pyStarts (s pre : String) : Bool :=
  isPrefixL pre.toList s.toList

/-- Python `str.endswith` (exact characters). -/
def pyEnds (s suf : String) : Bool :=
  isPrefixL suf.toList.reverse s.toList.reverse

/-- First index at which `pat` occurs in `s`. -/
def idxOfSub (pat : List Char) : List Char → Option Nat
  | [] => if pat.isEmpty then some 0 else none
  | s@(_ :: t) =>
    if isPrefixL pat s then some 0 else (idxOfSub pat t).map (· + 1)

/-- Index of the last occurrence of character `c` in `s`. -/
def lastIdxOfChar (c : Char) (s : List Char) : Option Nat :=
  (s.foldl (fun (st : Nat × Option Nat) ch =>
    (st.1 + 1, if ch == c then some st.1 else st.2)) (0, none)).2

/-- Python `str.replace(pat, rep)`: all non-overlapping occurrences,
left to right.  `fuel` bounds the scan (callers pass the length). -/
def replaceAllL (fuel : Nat) (pat rep : List Char) (s : List Char) : List Char :=
  match fuel, s with
  | 0, s => s
  | _ + 1, [] => []
  | f + 1, s@(c :: t) =>
    if pat ≠ [] && isPrefixL pat s then
      rep ++ replaceAllL f pat rep (s.drop pat.length)
    else
      c :: replaceAllL f pat rep t

/-- Python `str.replace` on `String`s. -/
def pyReplace (s pat rep : String) : String :=
  String.mk (replaceAllL s.toList.length pat.toList rep.toList s.toList)

/-! ## Python numeric coercion (model of the `coerce_numeric` cell step) -/

/-- From `advanced_handler.py` line 113: the regex `[^\d.\-]+` is replaced by
the empty string, i.e. every character that is not a digit, a dot or a
hyphen is dropped. -/
def stripNonNum (s : String) : String :=
  String.mk (s.toList.filter (fun c => c.isDigit || c == '.' || c == '-'))

/-- Fold a digit list into a natural number. -/
def digitsToNat (ds : List Char) : Nat :=
  ds.foldl (fun n c => 10 * n + (c.toNat - '0'.toNat)) 0

/-- Model of `pandas.to_numeric` on a stripped string (alphabet: digits, `.`,
`-`): succeeds exactly on `-? (digits+ (. digits*)? | . digits+)` — the
strings `float` accepts over that alphabet — and yields the exact
rational value; anything else (with `errors='coerce'`) becomes missing. -/
def parsePyNum (s : String) : Option ℚ :=
  let cs := s.toList
  let (neg, cs1) := match cs with
    | '-' :: rest => (true, rest)
    | rest => (false, rest)
  let (intDs, cs2) := cs1.span Char.isDigit
  let (fracDs, cs3) :=
    match cs2 with
    | '.' :: rest => rest.span Char.isDigit
    | rest => (([] : List Char), rest)
  if cs3 ≠ [] then none
  else if intDs = [] && fracDs = [] then none
  else
    let m : ℤ := (digitsToNat (intDs ++ fracDs) : ℤ)
    some (mkRat (if neg then -m else m) (10 ^ fracDs.length))

/-- Python's `round` (banker's rounding, half to even) on an exact
rational. -/
def pyRound (q : ℚ) : ℤ :=
  if q - ⌊q⌋ = 1 / 2 then (if ⌊q⌋ % 2 = 0 then ⌊q⌋ else ⌊q⌋ + 1)
  else round q

/-! ## JSON values and a model of Python's `json.loads`

Python's `json` module distinguishes ints from floats both when parsing
and when serializing, so numbers carry an `isFloat` flag.  The
non-standard `NaN`/`Infinity` literals Python accepts are outside the
model. -/

inductive Json where
  | null
  | bool (b : Bool)
  | num (isFloat : Bool) (q : ℚ)
  | str (s : String)
  | arr (xs : List Json)
  | obj (fields : List (String × Json))

/-- Insert into a Python-dict model: overwrite the value in place if the
key exists, else append (preserves first-insertion order). -/
def insObj (k : String) (v : Json) : List (String × Json) → List (String × Json)
  | [] => [(k, v)]
  | (k', v') :: rest =>
    if k' == k then (k', v) :: rest else (k', v') :: insObj k v rest

/-- Look a key up in a JSON object (the object, built by `insObj`, has
unique keys). -/
def lookupField (fs : List (String × Json)) (k : String) : Option Json :=
  match fs with
  | [] => none
  | (k', v) :: rest => if k' == k then some v else lookupField rest k

/-- For an object, look up a key; `none` otherwise. -/
def Json.getVal : Json → String → Option Json
  | .obj fs, k => lookupField fs k
  | _, _ => none

/-- JSON whitespace. -/
def jWs (c : Char) : Bool :=
  c == ' ' || c == '\t' || c == '\n' || c == '\r'

/-- Numeric value of one hexadecimal digit character. -/
def hexDigit (c : Char) : Option Nat :=
  let n := c.toNat
  if 48 ≤ n && n ≤ 57 then some (n - 48)
  else if 97 ≤ n && n ≤ 102 then some (n - 87)
  else if 65 ≤ n && n ≤ 70 then some (n - 55)
  else none

/-- Parse a JSON string body (after the opening quote); returns the
decoded characters and the remainder after the closing quote.  Raw
control characters are rejected (Python's strict mode). -/
def parseJStr : List Char → Option (List Char × List Char)
  | [] => none
  | '"' :: t => some ([], t)
  | '\\' :: esc =>
    match esc with
    | [] => none
    | e :: t =>
      let simple : Option Char :=
        if e == '"' then some '"'
        else if e == '\\' then some '\\'
        else if e == '/' then some '/'
        else if e == 'b' then some '\x08'
        else if e == 'f' then some '\x0c'
        else if e == 'n' then some '\n'
        else if e == 'r' then some '\r'
        else if e == 't' then some '\t'
        else none
      match simple with
      | some c => (parseJStr t).map (fun r => (c :: r.1, r.2))
      | none =>
        if e == 'u' then
          match t with
          | a :: b :: c :: d :: rest =>
            match hexDigit a, hexDigit b, hexDigit c, hexDigit d with
            | some x, some y, some z, some w =>
              let n := 4096 * x + 256 * y + 16 * z + w
              (parseJStr rest).map (fun r => (Char.ofNat n :: r.1, r.2))
            | _, _, _, _ => none
          | _ => none
        else none
  | c :: t =>
    if c.toNat < 32 then none
    else (parseJStr t).map (fun r => (c :: r.1, r.2))

/-- Computes `mantissa * 10^exp / 10^fracLen` as an exact rational, built from
integer arithmetic. -/
def sciToRat (m : ℤ) (fracLen : Nat) (e : ℤ) : ℚ :=
  if 0 ≤ e then mkRat (m * 10 ^ e.toNat) (10 ^ fracLen)
  else mkRat m (10 ^ fracLen * 10 ^ (-e).toNat)

/-- Parse an optional exponent part `[eE][+-]?[0-9]+`; `none` when it is
absent or malformed (a malformed suffix is left for the caller, which
then fails on the extra data, as Python's scanner does). -/
def parseJExp (s : List Char) : Option (ℤ × List Char) :=
  match s with
  | e :: rest =>
    if e == 'e' || e == 'E' then
      let (sgn, rest2) := match rest with
        | '+' :: r => ((1 : ℤ), r)
        | '-' :: r => ((-1 : ℤ), r)
        | r => ((1 : ℤ), r)
      match rest2 with
      | d :: _ =>
        if d.isDigit then
          let (ds, r3) := rest2.span Char.isDigit
          some (sgn * (digitsToNat ds : ℤ), r3)
        else none
      | [] => none
    else none
  | [] => none

/-- Parse a JSON number per the grammar Python's `json` uses:
`-? (0 | [1-9][0-9]*) (\.[0-9]+)? ([eE][+-]?[0-9]+)?`.  A fractional or
exponent part is consumed only when well-formed; leftover characters
make the caller fail (extra data), matching Python.  The result is an
int unless a fraction or exponent appeared. -/
def parseJNum (s : List Char) : Option (Json × List Char) :=
  let (neg, s1) := match s with
    | '-' :: rest => (true, rest)
    | rest => (false, rest)
  match s1 with
  | [] => none
  | c :: rest1 =>
    if !c.isDigit then none
    else
      let (intDs, s2) :=
        if c == '0' then (['0'], rest1) else s1.span Char.isDigit
      let (fracDs, s3) :=
        match s2 with
        | '.' :: d :: rest =>
          if d.isDigit then (d :: rest).span Char.isDigit else (([] : List Char), s2)
        | _ => (([] : List Char), s2)
      let (expVal, isFloatExp, s4) :=
        match parseJExp s3 with
        | some (e, r) => (e, true, r)
        | none => ((0 : ℤ), false, s3)
      let m : ℤ := (digitsToNat (intDs ++ fracDs) : ℤ)
      let q : ℚ := sciToRat (if neg then -m else m) fracDs.length expVal
      some (Json.num (!fracDs.isEmpty || isFloatExp) q, s4)

/-- Parser tasks for the fueled JSON value parser: parse one value, or
continue an array / object whose opening bracket was consumed. -/
inductive JTask where
  | val
  | arrFirst
  | arrMore (acc : List Json)
  | objFirst (acc : List (String × Json))
  | objMore (acc : List (String × Json))

/-- Fueled recursive-descent parser for JSON values, following Python's
`json.loads` on standard JSON (objects keep first-insertion order with
later duplicate keys overwriting, arrays in order, no trailing commas). -/
def parseJ : Nat → JTask → List Char → Option (Json × List Char)
  | 0, _, _ => none
  | f + 1, .val, s =>
    match s.dropWhile jWs with
    | [] => none
    | s1@(c :: t) =>
      if c == 'n' then
        if isPrefixL "ull".toList t then some (Json.null, t.drop 3) else none
      else if c == 't' then
        if isPrefixL "rue".toList t then some (Json.bool true, t.drop 3) else none
      else if c == 'f' then
        if isPrefixL "alse".toList t then some (Json.bool false, t.drop 4) else none
      else if c == '"' then
        (parseJStr t).map (fun r => (Json.str (String.mk r.1), r.2))
      else if c == '[' then
        parseJ f .arrFirst t
      else if c == '\x7b' then
        parseJ f (.objFirst []) t
      else
        parseJNum s1
  | f + 1, .arrFirst, s =>
    match s.dropWhile jWs with
    | ']' :: t => some (Json.arr [], t)
    | s1 =>
      match parseJ f .val s1 with
      | some (v, r) => parseJ f (.arrMore [v]) r
      | none => none
  | f + 1, .arrMore acc, s =>
    match s.dropWhile jWs with
    | ']' :: t => some (Json.arr acc.reverse, t)
    | ',' :: t =>
      match parseJ f .val t with
      | some (v, r) => parseJ f (.arrMore (v :: acc)) r
      | none => none
    | _ => none
  | f + 1, .objFirst acc, s =>
    match s.dropWhile jWs with
    | '\x7d' :: t => some (Json.obj acc, t)
    | '"' :: t =>
      match parseJStr t with
      | some (kChars, r1) =>
        match r1.dropWhile jWs with
        | ':' :: r2 =>
          match parseJ f .val r2 with
          | some (v, r3) => parseJ f (.objMore (insObj (String.mk kChars) v acc)) r3
          | none => none
        | _ => none
      | none => none
    | _ => none
  | f + 1, .objMore acc, s =>
    match s.dropWhile jWs with
    | '\x7d' :: t => some (Json.obj acc, t)
    | ',' :: t =>
      match t.dropWhile jWs with
      | '"' :: t2 =>
        match parseJStr t2 with
        | some (kChars, r1) =>
          match r1.dropWhile jWs with
          | ':' :: r2 =>
            match parseJ f .val r2 with
            | some (v, r3) => parseJ f (.objMore (insObj (String.mk kChars) v acc)) r3
            | none => none
          | _ => none
        | none => none
      | _ => none
    | _ => none

/-- Model of Python's `json.loads`: parse one value and require only
whitespace to remain. -/
def jsonLoads (s : List Char) : Option Json :=
  match parseJ (8 * s.length + 8) .val s with
  | some (v, rest) => if (rest.dropWhile jWs).isEmpty then some v else none
  | none => none

/-! ## Tables (pandas DataFrame model) and the Table Normalizer -/

/-- A DataFrame cell: an opaque string, a numeric value, or missing
(`NaN` produced by failed coercion / absent data). -/
inductive Cell where
  | str (s : String)
  | num (q : ℚ)
  | missing
deriving DecidableEq

/-- A DataFrame: named columns in order, each an ordered list of cells
(rows aligned by position). -/
abbrev DF := List (String × List Cell)

/-- Column names in order (`df.columns`). -/
def dfNames (df : DF) : List String := df.map Prod.fst

/-- One cell of `coerce_numeric` (line 113): `astype(str)`, strip all
characters outside `[0-9.\-]`, then `to_numeric(..., errors='coerce')`;
a failed parse becomes missing.  A numeric cell survives unchanged
(its decimal string re-parses to the same value); a missing cell maps
to "nan", strips to "", and stays missing. -/
def coerceCell (c : Cell) : Cell :=
  match c with
  | .str s =>
    match parsePyNum (stripNonNum s) with
    | some q => .num q
    | none => .missing
  | .num q => .num q
  | .missing => .missing

/-- Model of `coerce_numeric` (lines 110–116): every column is coerced cell by
cell.  The `try/except` around the statement is unreachable for the
cell values in the model (`to_numeric` with `errors='coerce'` does not
raise there), so no column is left untouched. -/
def coerceNumeric (df : DF) : DF :=
  df.map (fun cv => (cv.1, cv.2.map coerceCell))

/-- Model of `df.rename(columns=lambda c: str(c).strip())` (line 308). -/
def renameStrip (df : DF) : DF :=
  df.map (fun cv => (pyStrip cv.1, cv.2))

/-- Cell at column index `i`, row index `j`. -/
def cellAt (df : DF) (i j : Nat) : Option Cell :=
  df[i]?.bind (fun cv => cv.2[j]?)

/-- The numeric values of a column (`dropna()` on a coerced column). -/
def colNums (vs : List Cell) : List ℚ :=
  vs.filterMap (fun c => match c with
    | .num q => some q
    | _ => none)

/-- Model of `float(column.dropna().sum())` — sum of the non-missing numeric
values (pandas sums an empty selection to 0). -/
def pySum (vs : List Cell) : ℚ := (colNums vs).sum

/-- A column whose cells are all numeric or missing, i.e. whose pandas
dtype is numeric (`select_dtypes(include=['number'])` keeps it).  After
`coerce_numeric` this holds for every column. -/
def colIsNumeric (vs : List Cell) : Bool :=
  vs.all (fun c => match c with
    | .str _ => false
    | _ => true)

/-- Names of the numeric-dtype columns, in order. -/
def numericCols (df : DF) : List String :=
  (df.filter (fun cv => colIsNumeric cv.2)).map Prod.fst

/-- First column matching `col` by case-insensitive exact name
(`c.strip().lower() == col.lower()`, lines 318/328/334-335). -/
def colExact (df : DF) (col : String) : Option (String × List Cell) :=
  df.find? (fun cv => pyLower (pyStrip cv.1) == pyLower col)

/-- First column containing `col` case-insensitively
(`col.lower() in str(c).lower()`, line 322). -/
def colSub (df : DF) (col : String) : Option (String × List Cell) :=
  df.find? (fun cv => pyContains (pyLower cv.1) (pyLower col))

/-! ## Format Detector (`detect_file_type`, lines 44–72) -/

inductive FType where
  | csv
  | xlsx
  | pdf
deriving DecidableEq

/-- Stage (a): the declared content-type header.  An empty content-type
is skipped (`if content_type:`); a non-empty one matching no marker
falls through. -/
def ctClassify (ct : String) : Option FType :=
  if ct = "" then none
  else
    let lc := pyLower ct
    if pyContains lc "csv" || pyContains lc "text/plain" then some .csv
    else if pyContains lc "excel" || pyContains lc "spreadsheet" ||
            pyContains lc "xlsx" || pyContains lc "xls" then some .xlsx
    else if pyContains lc "pdf" then some .pdf
    else none

/-- Stage (b): classify the mime string `magic.from_buffer` returned
(note: pdf is tested first here, unlike stage (a)).  An empty string is
skipped (`if m:`). -/
def sniffClassify (m : String) : Option FType :=
  if m = "" then none
  else
    let lm := pyLower m
    if pyContains lm "pdf" then some .pdf
    else if pyContains lm "excel" || pyContains lm "vnd.ms-excel" ||
            pyContains lm "spreadsheet" then some .xlsx
    else if pyContains lm "csv" || pyContains lm "text/plain" then some .csv
    else none

/-- Stage (c): the URL file suffix. -/
def suffixClassify (url : String) : Option FType :=
  let lu := pyLower url
  if pyEnds lu ".csv" then some .csv
  else if pyEnds lu ".xlsx" || pyEnds lu ".xls" then some .xlsx
  else if pyEnds lu ".pdf" then some .pdf
  else none

/-- Model of `detect_file_type(url, content_type, content_bytes)`.  `sniffRes` is
the result of `magic.from_buffer(content_bytes, mime=True)`; `none`
covers the magic library being unavailable or raising.  Order in the
code: content-type, then magic sniffing, then URL suffix. -/
def detectFileType (url ct : String) (sniffRes : Option String) : Option FType :=
  match ctClassify ct with
  | some f => some f
  | none =>
    match sniffRes.bind sniffClassify with
    | some f => some f
    | none => suffixClassify url

/-! ## Instruction Classifier (`detect_instruction`, lines 143–164)

The regular expressions of the source are implemented directly, with
their leftmost-match and greedy/lazy backtracking semantics.  The text
is lower-cased first (line 144), so all patterns run on lowercase
input. -/

/-- The capture character class `[a-z0-9 _\-\(\)]`. -/
def capClass (c : Char) : Bool :=
  ('a' ≤ c && c ≤ 'z') || c.isDigit || c == ' ' || c == '_' ||
    c == '-' || c == '(' || c == ')'

/-- Match a literal, returning the remainder. -/
def litL (pat s : List Char) : Option (List Char) :=
  if isPrefixL pat s then some (s.drop pat.length) else none

/-- Largest split point `k ≥ 1` of `run` such that `run.drop k` begins
with " column" — the greedy backtracking of `([class]+) column` when the
trailer's characters are themselves in the class. -/
def bestColSplit : Nat → List Char → Option Nat
  | 0, _ => none
  | k + 1, run =>
    if isPrefixL " column".toList (run.drop (k + 1)) then some (k + 1)
    else bestColSplit k run

/-- Match `([class]+) column` at this position and return the capture. -/
def capCol (s : List Char) : Option (List Char) :=
  let run := (s.span capClass).1
  match bestColSplit run.length run with
  | some k => some (run.take k)
  | none => none

/-- Match `"?([class]+)"? column` at this position.  A leading quote is
consumed deterministically (the class excludes quotes); the greedy
capture prefers swallowing the whole class run with a closing quote,
then backtracks to an inner " column" split. -/
def capTail (s : List Char) : Option (List Char) :=
  let s1 := match s with
    | '"' :: t => t
    | t => t
  let (run, rest) := s1.span capClass
  if run.isEmpty then none
  else if isPrefixL ('"' :: " column".toList) rest then some run
  else
    match bestColSplit run.length run with
    | some k => some (run.take k)
    | none => none

/-- Match `(?:the )?"?([class]+)"? column`, backtracking over the
optional "the " (whose letters are in the capture class). -/
def theCapTail (s : List Char) : Option (List Char) :=
  if isPrefixL "the ".toList s then
    match capTail (s.drop 4) with
    | some c => some c
    | none => capTail s
  else capTail s

/-- Pattern `sum of (?:the )?"?([class]+)"? column` at this position. -/
def sumOfAt (s : List Char) : Option (List Char) :=
  match litL "sum of ".toList s with
  | some r => theCapTail r
  | none => none

/-- Leftmost match of the sum-of pattern. -/
def findSumOf : List Char → Option (List Char)
  | [] => none
  | s@(_ :: t) =>
    match sumOfAt s with
    | some c => some c
    | none => findSumOf t

/-- Pattern `(?:mean|average) of (?:the )?"?([class]+)"? column` at this
position. -/
def meanOfAt (s : List Char) : Option (List Char) :=
  match litL "mean of ".toList s with
  | some r => theCapTail r
  | none =>
    match litL "average of ".toList s with
    | some r => theCapTail r
    | none => none

/-- Leftmost match of the mean/average pattern. -/
def findMeanOf : List Char → Option (List Char)
  | [] => none
  | s@(_ :: t) =>
    match meanOfAt s with
    | some c => some c
    | none => findMeanOf t

/-- Backtracking split for `([class]+) (?:and|,) ([class]+)`: the first
capture is a prefix of the class run (longest first, "and" preferred
over ","), the second capture is the maximal class run after the
separator. -/
def corrSplit : Nat → List Char → Option (List Char × List Char)
  | 0, _ => none
  | k + 1, r =>
    let after := r.drop (k + 1)
    (if isPrefixL " and ".toList after then
      let c2 := ((after.drop 5).span capClass).1
      if c2.isEmpty then none else some (r.take (k + 1), c2)
    else if isPrefixL " , ".toList after then
      let c2 := ((after.drop 3).span capClass).1
      if c2.isEmpty then none else some (r.take (k + 1), c2)
    else none)
    |>.orElse (fun _ => corrSplit k r)

/-- Pattern ` ([class]+) (?:and|,) ([class]+)` at this position (the leading
space is the literal one of the pattern). -/
def corrCaps (s : List Char) : Option (List Char × List Char) :=
  match s with
  | ' ' :: r =>
    let run := (r.span capClass).1
    corrSplit run.length r
  | _ => none

/-- Pattern `correl(?:ation|ate)(?: between)? ([class]+) (?:and|,) ([class]+)`
at this position, backtracking over the optional " between". -/
def corrAt (s : List Char) : Option (List Char × List Char) :=
  match litL "correl".toList s with
  | none => none
  | some r =>
    let afterSuf : Option (List Char) :=
      match litL "ation".toList r with
      | some r2 => some r2
      | none => litL "ate".toList r
    match afterSuf with
    | none => none
    | some r2 =>
      if isPrefixL " between".toList r2 then
        match corrCaps (r2.drop 8) with
        | some p => some p
        | none => corrCaps r2
      else corrCaps r2

/-- Leftmost match of the correlation pattern. -/
def findCorr : List Char → Option (List Char × List Char)
  | [] => none
  | s@(_ :: t) =>
    match corrAt s with
    | some p => some p
    | none => findCorr t

/-- Pattern `y[:=]\s*([class]+)` with backtracking over the `\s*` (a space is
both whitespace and a class character): returns capture 2. -/
def xyCap2 : Nat → List Char → Option (List Char)
  | 0, r =>
    let run := (r.span capClass).1
    if run.isEmpty then none else some run
  | w + 1, r =>
    let run := ((r.drop (w + 1)).span capClass).1
    if run.isEmpty then xyCap2 w r else some run

/-- The `y[:=]\s*([class]+)` tail. -/
def xyTail2 (s : List Char) : Option (List Char) :=
  match s with
  | 'y' :: c :: r =>
    if c == ':' || c == '=' then xyCap2 (r.takeWhile isPyWs).length r else none
  | _ => none

/-- Pattern `[,;]?\s*` then the y tail (the optional separator and the `\s*`
munch deterministically, since neither ',', ';' nor whitespace can start
`y[:=]`). -/
def xyAfter1 (s : List Char) : Option (List Char) :=
  let s1 := match s with
    | c :: t => if c == ',' || c == ';' then t else s
    | [] => s
  xyTail2 (s1.dropWhile isPyWs)

/-- Greedy backtracking over the first capture's length. -/
def xyCap1Split : Nat → List Char → Option (List Char × List Char)
  | 0, _ => none
  | k + 1, r =>
    match xyAfter1 (r.drop (k + 1)) with
    | some c2 => some (r.take (k + 1), c2)
    | none => xyCap1Split k r

/-- Backtracking over the first `\s*` of the x/y pattern. -/
def xyWs1 : Nat → List Char → Option (List Char × List Char)
  | 0, r =>
    let run := (r.span capClass).1
    xyCap1Split run.length r
  | w + 1, r =>
    let r2 := r.drop (w + 1)
    let run := (r2.span capClass).1
    match xyCap1Split run.length r2 with
    | some p => some p
    | none => xyWs1 w r

/-- Pattern `x[:=]\s*([class]+)[,;]?\s*y[:=]\s*([class]+)` at this position. -/
def xyAt (s : List Char) : Option (List Char × List Char) :=
  match s with
  | 'x' :: c :: r =>
    if c == ':' || c == '=' then xyWs1 (r.takeWhile isPyWs).length r else none
  | _ => none

/-- Leftmost match of the x/y pattern. -/
def findXy : List Char → Option (List Char × List Char)
  | [] => none
  | s@(_ :: t) =>
    match xyAt s with
    | some p => some p
    | none => findXy t

/-- Lazy skip of `sum.*?([class]+) column`: try the capture at the
current position, else skip one character (which `.` forbids to be a
newline) and retry. -/
def lazySkipCap : List Char → Option (List Char)
  | [] => none
  | s@(c :: t) =>
    match capCol s with
    | some cp => some cp
    | none => if c == '\n' then none else lazySkipCap t

/-- Leftmost match of the loose `sum.*?([class]+) column` fallback. -/
def findLooseSum : List Char → Option (List Char)
  | [] => none
  | s@(_ :: t) =>
    match litL "sum".toList s with
    | some r =>
      match lazySkipCap r with
      | some c => some c
      | none => findLooseSum t
    | none => findLooseSum t

/-- The classified instruction (`instr` dict). -/
inductive Instr where
  | sum (col : String)
  | mean (col : String)
  | corr (x y : String)
  | plot (x y : Option String)
  | unknown
deriving DecidableEq

/-- Model of `detect_instruction(text)`: lower-case the text, then apply the
rules in order — explicit sum-of, mean/average-of, correlation, the
plot keywords (refined by an `x:... y:...` pair), and the loose sum
fallback.  Captures are stripped. -/
def detectInstruction (text : String) : Instr :=
  let t := (pyLower text).toList
  match findSumOf t with
  | some c => .sum (pyStrip (String.mk c))
  | none =>
  match findMeanOf t with
  | some c => .mean (pyStrip (String.mk c))
  | none =>
  match findCorr t with
  | some p => .corr (pyStrip (String.mk p.1)) (pyStrip (String.mk p.2))
  | none =>
  if isSubL "visual".toList t || isSubL "plot".toList t || isSubL "chart".toList t then
    match findXy t with
    | some p => .plot (some (pyStrip (String.mk p.1))) (some (pyStrip (String.mk p.2)))
    | none => .plot none none
  else
  match findLooseSum t with
  | some c => .sum (pyStrip (String.mk c))
  | none => .unknown

/-! ## Answer Computer (lines 312–366) and chart artifact -/

/-- What `df_plot_to_base64` actually draws (lines 119–138): both
columns when x and y are given and present, y alone when only y is
usable, else the whole frame.  The real function encodes the drawing as
a base64 PNG data URI; the model keeps the structural content. -/
inductive PlotChoice where
  | xy (x y : String)
  | yOnly (y : String)
  | whole
deriving DecidableEq

/-- Python truthiness of an optional string argument. -/
def optStrTruthy (o : Option String) : Bool :=
  match o with
  | some s => s != ""
  | none => false

/-- The branch selection inside `df_plot_to_base64(df, xcol, ycol)`. -/
def dfPlotChoice (x y : Option String) (df : DF) : PlotChoice :=
  if optStrTruthy x && optStrTruthy y && (dfNames df).contains (x.getD "") &&
      (dfNames df).contains (y.getD "") then
    .xy (x.getD "") (y.getD "")
  else if optStrTruthy y && (dfNames df).contains (y.getD "") then
    .yOnly (y.getD "")
  else .whole

/-- A Python value held in the handler's `answer` variable: int, float,
the float NaN, a string, or a JSON value returned verbatim from a
script blob. -/
inductive PyObj where
  | int (z : ℤ)
  | float (q : ℚ)
  | nanF
  | str (s : String)
  | json (j : Json)

/-- Model of `float(column.dropna().mean())`: NaN when no value survives
`dropna()`. -/
def pyMean (vs : List Cell) : PyObj :=
  match colNums vs with
  | [] => .nanF
  | xs => .float (xs.sum / xs.length)

/-- Lines 363–364: a float integral within 1e-8 is converted with
`int(round(answer))`; every other value is returned unchanged. -/
def formatAnswer (a : PyObj) : PyObj :=
  match a with
  | .float q =>
    if |((pyRound q : ℤ) : ℚ) - q| < 1 / 100000000 then .int (pyRound q)
    else .float q
  | a => a

/-- The pandas `Series.corr` oracle: Pearson correlation of two columns
(pairwise alignment and NaN handling are pandas-internal); `none`
models a NaN result. -/
abbrev CorrOracle := List Cell → List Cell → Option ℚ

/-- The `try` block of lines 315–352: compute the raw answer and the
chart artifact for a classified instruction.  No modelled operation
raises, so the `except` branch (line 354) is unreachable here. -/
def computeAnswer (corrO : CorrOracle) (df : DF) : Instr → Option PyObj × Option PlotChoice
  | .sum col =>
    (match colExact df col with
     | some cv => some (.float (pySum cv.2))
     | none =>
       match colSub df col with
       | some cv => some (.float (pySum cv.2))
       | none => none,
     none)
  | .mean col =>
    (match colExact df col with
     | some cv => some (pyMean cv.2)
     | none => none,
     none)
  | .corr x y =>
    (match colExact df x, colExact df y with
     | some cx, some cy =>
       some (match corrO cx.2 cy.2 with
             | some q => .float q
             | none => .nanF)
     | _, _ => none,
     none)
  | .plot x y =>
    if optStrTruthy y && (dfNames df).contains (y.getD "") then
      (some (.str "attached_plot"), some (dfPlotChoice x y df))
    else
      match numericCols df with
      | nc :: _ => (some (.str "attached_plot"), some (dfPlotChoice none (some nc) df))
      | [] => (none, none)
  | .unknown =>
    (match df.find? (fun cv => pyLower (pyStrip cv.1) == "value") with
     | some cv => some (.float (pySum cv.2))
     | none => none,
     none)

/-! ## URLs and the Submission-Target Resolver (lines 173–257) -/

/-- Case-insensitive literal prefix test. `pat` is given lowercase. -/
def litCIAt : List Char → List Char → Bool
  | [], _ => true
  | _ :: _, [] => false
  | p :: ps, c :: cs => p == c.toLower && litCIAt ps cs

/-- Case-insensitive literal match returning the remainder. -/
def litCIOpt (pat s : List Char) : Option (List Char) :=
  if litCIAt pat s then some (s.drop pat.length) else none

/-- Pattern `https?://` at this position (case-insensitively, greedy on the
optional `s`); returns the matched original characters and the rest. -/
def schemeAt (s : List Char) : Option (List Char × List Char) :=
  if litCIAt "https://".toList s then some (s.take 8, s.drop 8)
  else if litCIAt "http://".toList s then some (s.take 7, s.drop 7)
  else none

/-- Model of `urllib.parse.urljoin` for the shapes the handler feeds it:
an absolute http(s) reference wins; a protocol-relative, root-relative
or plain relative reference is resolved against the base's scheme,
origin, or directory.  Dot-segment normalization and query/fragment
splitting are outside the model. -/
def urljoin (b u : String) : String :=
  if b = "" then u
  else if pyStarts u "http://" || pyStarts u "https://" then u
  else if u = "" then b
  else
    match idxOfSub "://".toList b.toList with
    | none => u
    | some i =>
      let pre := String.mk (b.toList.take i)
      let post := b.toList.drop (i + 3)
      let netloc := post.takeWhile (fun c => (c != '/') && (c != '?') && (c != '#'))
      if pyStarts u "//" then pre ++ ":" ++ u
      else if pyStarts u "/" then pre ++ "://" ++ String.mk netloc ++ u
      else
        match lastIdxOfChar '/' post with
        | some k => pre ++ "://" ++ String.mk (post.take (k + 1)) ++ u
        | none => pre ++ "://" ++ String.mk post ++ "/" ++ u

/-- The string `f"{p.scheme}://{p.netloc}"` after `urlparse(base_url)`; a base
without `://` yields the (truthy) string "://", as urlparse gives empty
scheme and netloc. -/
def originOf (b : String) : String :=
  match idxOfSub "://".toList b.toList with
  | some i =>
    String.mk (b.toList.take i) ++ "://" ++
      String.mk ((b.toList.drop (i + 3)).takeWhile
        (fun c => (c != '/') && (c != '?') && (c != '#')))
  | none => "://"

/-- Characters that end a URL token in the rule-1/rule-6 regexes
(`[^\s'\"<>]`). -/
def urlStop (c : Char) : Bool :=
  isPyWs c || c == '\'' || c == '"' || c == '<' || c == '>'

/-- Leftmost match of `https?://[^stop]*(?:markers)[^stop]*`: at each
position, an http(s) scheme followed by the maximal stop-free run that
contains one of the (lowercase) markers; the greedy match is the scheme
plus the whole run. -/
def findUrlMarked (markers : List (List Char)) : List Char → Option (List Char)
  | [] => none
  | s@(_ :: t) =>
    (match schemeAt s with
     | some (sch, rest) =>
       let run := (rest.span (fun c => !urlStop c)).1
       if markers.any (fun mk => isSubL mk (run.map Char.toLower)) then some (sch ++ run)
       else none
     | none => none)
    |>.orElse (fun _ => findUrlMarked markers t)

/-- Rule 1 (line 177): an absolute URL in the page text whose stop-free
run contains a submission path segment. -/
def findRule1 (bodyText : String) : Option String :=
  (findUrlMarked
    ["/submit".toList, "/scrape".toList, "/api/submit".toList,
     "/submit-answer".toList, "/submit_result".toList] bodyText.toList).map String.mk

def isQuote (c : Char) : Bool := c == '"' || c == '\''

/-- Pattern `["\']submit[_-]?url["\']\s*:\s*["\'](https?://[^"\']+)["\']` at
this position (case-insensitive); returns the captured URL. -/
def m2At (s : List Char) : Option (List Char) :=
  match s with
  | [] => none
  | q :: t =>
    if !isQuote q then none
    else
      match litCIOpt "submit".toList t with
      | none => none
      | some r1 =>
        let r2 := match r1 with
          | c :: rest => if c == '_' || c == '-' then rest else r1
          | [] => r1
        match litCIOpt "url".toList r2 with
        | none => none
        | some r3 =>
          match r3 with
          | [] => none
          | q2 :: r4 =>
            if !isQuote q2 then none
            else
              match r4.dropWhile isPyWs with
              | ':' :: r6 =>
                match r6.dropWhile isPyWs with
                | [] => none
                | q3 :: r8 =>
                  if !isQuote q3 then none
                  else
                    match schemeAt r8 with
                    | some (sch, rest) =>
                      let (run, rest2) := rest.span (fun c => !isQuote c)
                      if run.isEmpty || rest2.isEmpty then none
                      else some (sch ++ run)
                    | none => none
              | _ => none

/-- Pattern `["\'](https?://[^"\']*(?:submit|scrape)[^"\']*)["\']` at this
position (case-insensitive); returns the captured URL. -/
def m3At (s : List Char) : Option (List Char) :=
  match s with
  | [] => none
  | q :: t =>
    if !isQuote q then none
    else
      match schemeAt t with
      | some (sch, rest) =>
        let (run, rest2) := rest.span (fun c => !isQuote c)
        let lrun := run.map Char.toLower
        if (isSubL "submit".toList lrun || isSubL "scrape".toList lrun) &&
            !rest2.isEmpty then
          some (sch ++ run)
        else none
      | none => none

/-- Leftmost match of a positional matcher. -/
def findScan (f : List Char → Option (List Char)) : List Char → Option (List Char)
  | [] => none
  | s@(_ :: t) =>
    match f s with
    | some r => some r
    | none => findScan f t

/-- Rule 2 (lines 182–192): first script whose body yields a
`submit_url` key or any quoted absolute URL containing submit/scrape. -/
def findRule2 : List String → Option String
  | [] => none
  | st :: rest =>
    if st == "" then findRule2 rest
    else
      match findScan m2At st.toList with
      | some u => some (String.mk u)
      | none =>
        match findScan m3At st.toList with
        | some u => some (String.mk u)
        | none => findRule2 rest

/-- Rule 3 (lines 195–203): the first form's action attribute — used
as-is when it starts with "http", resolved against the base when one is
given, skipped when falsy (empty). -/
def findRule3 (formAction : Option String) (base : Option String) : Option String :=
  match formAction with
  | none => none
  | some a =>
    if a = "" then none
    else if pyStarts a "http" then some a
    else
      match base with
      | some b => some (urljoin b a)
      | none => none

/-- Rule 4 (lines 206–211): first hyperlink whose target contains
submit, scrape or api (case-insensitive), resolved against
`base_url or ""`. -/
def findRule4 (base : Option String) : List String → Option String
  | [] => none
  | h :: t =>
    if pyContains (pyLower h) "submit" || pyContains (pyLower h) "scrape" ||
        pyContains (pyLower h) "api" then
      some (urljoin (base.getD "") h)
    else findRule4 base t

/-- The lazy `\{[\s\S]*?\}` span: from the first brace to the first
closing brace after it. -/
def lazyBraceSpan (s : List Char) : Option (List Char) :=
  match s.dropWhile (fun c => c != '\x7b') with
  | [] => none
  | _ :: t =>
    let (mid, rest2) := t.span (fun c => c != '\x7d')
    match rest2 with
    | [] => none
    | _ :: _ => some ('\x7b' :: (mid ++ ['\x7d']))

/-- Match `<span[^>]*class=["\']origin["\'][^>]*>.*?</span>` at this
position (case-insensitive; `.` excludes newlines); returns the rest
after the match. -/
def spanTagAt (s : List Char) : Option (List Char) :=
  match litCIOpt "<span".toList s with
  | none => none
  | some r =>
    let (run, rest) := r.span (fun c => c != '>')
    let lrun := run.map Char.toLower
    let hasCls :=
      isSubL "class=\"origin\"".toList lrun || isSubL "class='origin'".toList lrun ||
      isSubL "class=\"origin'".toList lrun || isSubL "class='origin\"".toList lrun
    if !hasCls then none
    else
      match rest with
      | [] => none
      | _ :: afterGt => closeSpanScan afterGt
where
  closeSpanScan : List Char → Option (List Char)
    | [] => none
    | s@(c :: t) =>
      match litCIOpt "</span>".toList s with
      | some r => some r
      | none => if c == '\n' then none else closeSpanScan t

/-- Model of `re.sub` of the origin-span pattern: replace every match. -/
def subSpanOrigin (fuel : Nat) (rep : List Char) (s : List Char) : List Char :=
  match fuel, s with
  | 0, s => s
  | _ + 1, [] => []
  | f + 1, s@(c :: t) =>
    match spanTagAt s with
    | some rest => rep ++ subSpanOrigin f rep rest
    | none => c :: subSpanOrigin f rep t

/-- Rule 5, one pre/code block (lines 215–246): extract the lazy brace
span, JSON-parse it, and use its string `url` field — substituting the
live origin (or the base's scheme+host) when the field holds an origin
placeholder.  Every failure path continues with the next block. -/
def rule5Block (base originEval : Option String) (blockText : String) : Option String :=
  match lazyBraceSpan blockText.toList with
  | none => none
  | some span =>
    match jsonLoads span with
    | some (Json.obj fs) =>
      match lookupField fs "url" with
      | some (Json.str cand) =>
        if pyContains cand "<span" || pyContains cand "window.location.origin" ||
            pyContains cand "\x7b\x7borigin\x7d\x7d" then
          let origin : Option String :=
            match originEval with
            | some o => if o == "" then base.map originOf else some o
            | none => base.map originOf
          match origin with
          | some og =>
            if og == "" then none
            else
              let fixed1 := String.mk (subSpanOrigin cand.toList.length og.toList cand.toList)
              let fixed2 :=
                pyReplace (pyReplace fixed1 "window.location.origin" og)
                  "\x7b\x7borigin\x7d\x7d" og
              some (urljoin og fixed2)
          | none => none
        else some (urljoin (base.getD "") cand)
      | _ => none
    | _ => none

/-- Rule 5 over all pre/code blocks in document order. -/
def findRule5 (base originEval : Option String) : List String → Option String
  | [] => none
  | blk :: rest =>
    match rule5Block base originEval blk with
    | some u => some u
    | none => findRule5 base originEval rest

/-- Rule 6 (lines 249–252): any absolute URL in the page text containing
submit or scrape. -/
def findRule6 (bodyText : String) : Option String :=
  (findUrlMarked ["submit".toList, "scrape".toList] bodyText.toList).map String.mk

/-- The parsed page as the handler reads it: `soup.get_text("\n")`, the
non-empty script bodies, the action of the first form carrying an
action attribute, hyperlink targets in document order, pre/code block
texts, and the tables `pd.read_html` returns for the document. -/
structure Page where
  bodyText : String
  scripts : List String
  formAction : Option String
  anchors : List String
  preCode : List String
  inlineTables : List DF

/-- The submission-target discovery (lines 174–252): six rules tried in
order, first hit wins.  `originEval` is the result of
`page.evaluate('() => window.location.origin')` (`none` when the page
handle is absent or evaluation raised). -/
def resolveSubmitUrl (p : Page) (base originEval : Option String) : Option String :=
  match findRule1 p.bodyText with
  | some u => some u
  | none =>
  match findRule2 p.scripts with
  | some u => some u
  | none =>
  match findRule3 p.formAction base with
  | some u => some u
  | none =>
  match findRule4 base p.anchors with
  | some u => some u
  | none =>
  match findRule5 base originEval p.preCode with
  | some u => some u
  | none => findRule6 p.bodyText

/-! ## Dataset discovery and the Pipeline Orchestrator (`handle_quiz_page`) -/

/-- The external collaborators the handler calls, as oracles:
`fetch` is `requests.get` (content bytes as a string and the
Content-Type header; `none` for a raised `FetchError`/timeout),
`sniff` is `magic.from_buffer` (`none` when the library is missing,
raises, or returns an empty string), the three parsers stand for
`pd.read_csv` / `pd.read_excel` (`none` = parser raised) and
`parse_table_from_pdf_bytes` (`none` = its internal failure result),
`corrOf` is pandas `Series.corr`, and `evalOrigin` is the Playwright
origin evaluation. -/
structure Net where
  fetch : String → Option (String × String)
  sniff : String → Option String
  parseCsv : String → Option DF
  parseXlsx : String → Option DF
  parsePdf : String → Option DF
  corrOf : CorrOracle
  evalOrigin : Option String

/-- Hyperlinks that look like dataset candidates (lines 260–268): the
lowercased target contains one of the four suffix substrings. -/
def candidateLinks (anchors : List String) : List String :=
  anchors.filter (fun l =>
    pyContains (pyLower l) ".csv" || pyContains (pyLower l) ".xls" ||
    pyContains (pyLower l) ".xlsx" || pyContains (pyLower l) ".pdf")

/-- The candidate-download loop (lines 278–292): resolve each link,
fetch it, detect its format and parse; csv/xlsx stop at the first
successful parse, pdf stops at the first non-empty table; any failure
skips to the next candidate. -/
def scanCandidates (net : Net) (base : Option String) : List String → Option DF
  | [] => none
  | l :: ls =>
    let u := match base with
      | some b => urljoin b l
      | none => l
    match net.fetch u with
    | none => scanCandidates net base ls
    | some (content, ctype) =>
      match detectFileType u ctype (net.sniff content) with
      | some .csv =>
        match net.parseCsv content with
        | some df => some df
        | none => scanCandidates net base ls
      | some .xlsx =>
        match net.parseXlsx content with
        | some df => some df
        | none => scanCandidates net base ls
      | some .pdf =>
        match net.parsePdf content with
        | some df => some df
        | none => scanCandidates net base ls
      | none => scanCandidates net base ls

/-- The greedy `\{[\s\S]*"answer"[\s\S]*\}` span (line 298): from the
first brace that is followed by an `"answer"` literal and a closing
brace, to the last closing brace of the script. -/
def answerSpan : List Char → Option (List Char)
  | [] => none
  | c :: t =>
    if c == '\x7b' then
      match idxOfSub "\"answer\"".toList t with
      | none => none
      | some o =>
        match lastIdxOfChar '\x7d' t with
        | some k =>
          if o + 8 ≤ k then some ('\x7b' :: t.take (k + 1)) else answerSpan t
        | none => answerSpan t
    else answerSpan t

/-- One script of the literal-answer scan (lines 296–304): extract the
greedy span, `json.loads` it, and return the `answer` value of a dict;
every failure (no match, parse error, non-dict, missing key — the
non-dict indexing raising is caught) moves to the next script. -/
def scriptAnswer (st : String) : Option Json :=
  match answerSpan st.toList with
  | none => none
  | some span =>
    match jsonLoads span with
    | some (Json.obj fs) => lookupField fs "answer"
    | _ => none

/-- The literal-answer scan over all scripts. -/
def scanScriptsForAnswer : List String → Option Json
  | [] => none
  | st :: rest =>
    match scriptAnswer st with
    | some a => some a
    | none => scanScriptsForAnswer rest

/-- The handler's result dictionary.  `answer = none` models Python
`None`; the attachment is present only when a chart was drawn. -/
structure Payload where
  email : String
  secret : String
  url : Option String
  answer : Option PyObj
  attachment : Option PlotChoice
  submitUrl : String

/-- Model of `handle_quiz_page(html, page, email, secret, base_url)` (lines
169–366): resolve the submission target (fatal when absent), locate a
dataset (first inline HTML table, else the candidate-link scan), fall
back to a script-embedded literal answer or the no-dataset sentinel,
else normalize the table, classify the instruction, compute the answer
and format integral floats.  A NaN answer reaching line 363 makes
`round` raise out of the handler. -/
def handleQuizPage (net : Net) (p : Page) (email secret : String)
    (base : Option String) : Except String Payload :=
  match resolveSubmitUrl p base net.evalOrigin with
  | none => .error "submit_url not found on page"
  | some su =>
    let dfO : Option DF :=
      match p.inlineTables with
      | t :: _ => some t
      | [] => scanCandidates net base (candidateLinks p.anchors)
    match dfO with
    | none =>
      match scanScriptsForAnswer p.scripts with
      | some a => .ok ⟨email, secret, base, some (.json a), none, su⟩
      | none => .ok ⟨email, secret, base, some (.str "unable to locate dataset"), none, su⟩
    | some raw =>
      let df := coerceNumeric (renameStrip raw)
      let instr := detectInstruction p.bodyText
      let res := computeAnswer net.corrOf df instr
      match res.2 with
      | some att => .ok ⟨email, secret, base, res.1, some att, su⟩
      | none =>
        match res.1 with
        | none => .ok ⟨email, secret, base, some (.str "no_answer_generated"), none, su⟩
        | some .nanF => .error "cannot convert float NaN to integer"
        | some a => .ok ⟨email, secret, base, some (formatAnswer a), none, su⟩

/-! ## Worker transmission (`worker.py`, lines 25–31)

`solve_quiz_task` pops `submit_url` from the payload and posts the
remainder as JSON.  The JSON wire codec (Python's `json` module used by
`requests`) is modelled as the identity on the JSON value: what the
submission target parses back is exactly the object built here. -/

/-- Encode a payload value for the JSON body. -/
def pyObjToJson : PyObj → Json
  | .int z => .num false (z : ℚ)
  | .float q => .num true q
  | .nanF => .num true 0
  | .str s => .str s
  | .json j => j

/-- A stand-in for the base64 PNG data URI of a drawn chart (the real
bytes come from matplotlib). -/
def plotChoiceRepr : PlotChoice → String
  | .xy x y => "data:image/png;base64,xy:" ++ x ++ "," ++ y
  | .yOnly y => "data:image/png;base64,y:" ++ y
  | .whole => "data:image/png;base64,whole"

/-- The payload dictionary as the handler returns it (key order of the
return statements; the attachment key exists only on the chart path). -/
def payloadDict (p : Payload) : List (String × Json) :=
  [("email", Json.str p.email), ("secret", Json.str p.secret),
   ("url", match p.url with
           | some u => Json.str u
           | none => Json.null),
   ("answer", match p.answer with
              | some a => pyObjToJson a
              | none => Json.null)] ++
  (match p.attachment with
   | some pc => [("attachment", Json.str (plotChoiceRepr pc))]
   | none => []) ++
  [("submit_url", Json.str p.submitUrl)]

/-- Model of `payload.pop("submit_url")` before the POST. -/
def stripSubmitKey : List (String × Json) → List (String × Json)
  | [] => []
  | (k, v) :: rest =>
    if k == "submit_url" then stripSubmitKey rest else (k, v) :: stripSubmitKey rest

/-- The JSON body of the final submission POST. -/
def transmitBody (p : Payload) : Json :=
  .obj (stripSubmitKey (payloadDict p))

/-! ## HTTP front door (`app.py`, the `/quiz` route) -/

/-- Python truthiness of a JSON value (`if not email or not url`). -/
def jsonTruthy : Json → Bool
  | .null => false
  | .bool b => b
  | .num _ q => q ≠ 0
  | .str s => s != ""
  | .arr xs => !xs.isEmpty
  | .obj fs => !fs.isEmpty

def optJsonTruthy (o : Option Json) : Bool :=
  match o with
  | some j => jsonTruthy j
  | none => false

/-- The `/quiz` responses.  `internalCrash` is Flask's 500 for the
uncaught `AttributeError` when `data` is valid JSON but not an object
(`data.get` on line 23 raises before any explicit check). -/
inductive QuizResp where
  | invalidJson
  | misconfigured
  | forbidden
  | missingFields
  | done (result : Json)
  | solverFailed (msg : String)
  | internalCrash

/-- The HTTP status each response carries. -/
def respStatus : QuizResp → Nat
  | .invalidJson => 400
  | .misconfigured => 500
  | .forbidden => 403
  | .missingFields => 400
  | .done _ => 200
  | .solverFailed _ => 500
  | .internalCrash => 500

/-- Condition `secret != EXPECTED_SECRET`, negated: the body's secret value is the
expected string (a non-string or absent secret never equals it). -/
def secretMatches (fs : List (String × Json)) (exp : String) : Bool :=
  match lookupField fs "secret" with
  | some (.str s) => s == exp
  | _ => false

/-- Model of `quiz()` (`app.py` lines 14–42).  `body` is the result of
`request.get_json(force=True)` (`none` when parsing raised, answered
with 400 before anything else); `expected` is the `TDS_SECRET`
environment value; `solve` is the `solve_quiz_task` collaborator
(`Except.error` models a raised exception, answered with 500). -/
def quizRoute (expected : Option String) (body : Option Json)
    (solve : Json → Json → Except String Json) : QuizResp :=
  match body with
  | none => .invalidJson
  | some j =>
    match j with
    | .obj fs =>
      let email := lookupField fs "email"
      let url := lookupField fs "url"
      match expected with
      | none => .misconfigured
      | some exp =>
        if !secretMatches fs exp then .forbidden
        else if !optJsonTruthy email || !optJsonTruthy url then .missingFields
        else
          match solve (email.getD Json.null) (url.getD Json.null) with
          | .ok r => .done r
          | .error m => .solverFailed m
    | _ => .internalCrash

/-! ## Fixtures -/

/-- A network oracle where every external call fails or is absent. -/
def noNet : Net :=
  ⟨fun _ => none, fun _ => none, fun _ => none, fun _ => none, fun _ => none,
   fun _ _ => none, none⟩

/-- A page with no content at all. -/
def emptyPage : Page := ⟨"", [], none, [], [], []⟩

/-- A page with a form-action submission target and a script holding a
literal JSON answer. -/
def pageC6 : Page := ⟨"", ["\x7b\"answer\": 7\x7d"], some "http://h/post", [], [], []⟩

/-- A page whose first form has an empty action attribute and which also
carries a submit-looking hyperlink. -/
def pageC7 : Page := ⟨"", [], some "", ["go-submit"], [], []⟩

/-- A page with a non-empty absolute form action and a submit-looking
hyperlink. -/
def pageC7w : Page := ⟨"", [], some "http://f/act", ["go-submit"], [], []⟩

/-- A two-column table whose first column is an identifier. -/
def dfC4 : DF := [("ID", [Cell.num 1, Cell.num 2]), ("Sales", [Cell.num 3, Cell.num 4])]

/-- The specification's fixture table `{A:[1,2,3], B:[4,5,6]}` as
parsed (string cells). -/
def dfC8 : DF :=
  [("A", [Cell.str "1", Cell.str "2", Cell.str "3"]),
   ("B", [Cell.str "4", Cell.str "5", Cell.str "6"])]

/-! ## Claims -/

/-- Positional access commutes with column-wise coercion. -/
theorem cellAt_coerce (t : DF) (i j : Nat) :
    cellAt (coerceNumeric t) i j = (cellAt t i j).map coerceCell := by
  unfold cellAt coerceNumeric
  rw [List.getElem?_map]
  cases t[i]? with
  | none => rfl
  | some cv => simp [List.getElem?_map]

/-- C1 counterexample: in the column `["1", "abc"]` the value "abc"
fails coercion, yet the column does not keep its original strings — it
becomes a mixture of a numeric cell and a missing cell. -/
theorem c1_mixture_cex :
    parsePyNum (stripNonNum "abc") = none ∧
    coerceNumeric [("X", [Cell.str "1", Cell.str "abc"])] =
      [("X", [Cell.num 1, Cell.missing])] ∧
    [("X", [Cell.num 1, Cell.missing])] ≠ [("X", [Cell.str "1", Cell.str "abc"])] :=
  ⟨rfl, by decide, by decide⟩

/-- C1 (amended): coercion is per cell, not all-or-nothing per column —
a string cell that fails coercion becomes missing, one that parses
becomes numeric, and no cell of the normalized table is ever a string,
so a partially coercible column persists a numeric/missing mixture
instead of its original strings. -/
theorem c1_coerce_per_cell (t : DF) (i j : Nat) (s : String)
    (h : cellAt t i j = some (Cell.str s)) :
    (parsePyNum (stripNonNum s) = none →
      cellAt (coerceNumeric t) i j = some Cell.missing) ∧
    (∀ q : ℚ, parsePyNum (stripNonNum s) = some q →
      cellAt (coerceNumeric t) i j = some (Cell.num q)) ∧
    (∀ (i' j' : Nat) (s' : String),
      cellAt (coerceNumeric t) i' j' ≠ some (Cell.str s')) := by
  refine ⟨fun hp => ?_, fun q hp => ?_, fun i' j' s' hc => ?_⟩
  · rw [cellAt_coerce, h]
    simp [coerceCell, hp]
  · rw [cellAt_coerce, h]
    simp [coerceCell, hp]
  · rw [cellAt_coerce] at hc
    rcases hcell : cellAt t i' j' with _ | c
    · rw [hcell] at hc
      simp at hc
    · rw [hcell] at hc
      rcases c with cs | cq | _ <;> simp [coerceCell] at hc
      rcases hps : parsePyNum (stripNonNum cs) with _ | q <;> simp [hps] at hc

/-- C1 witness. -/
theorem c1_coerce_per_cell_witness :
    cellAt (coerceNumeric [("X", [Cell.str "1", Cell.str "abc"])]) 0 1 =
      some Cell.missing :=
  (c1_coerce_per_cell [("X", [Cell.str "1", Cell.str "abc"])] 0 1 "abc" (by rfl)).1 (by rfl)

/-- C2 counterexample: with an empty content-type, PDF magic bytes and a
`.csv` URL suffix, the detector answers pdf — content sniffing, not the
URL suffix, wins the disagreement. -/
theorem c2_sniff_beats_suffix_cex :
    detectFileType "http://h/data.csv" "" (some "application/pdf") = some FType.pdf ∧
    suffixClassify "http://h/data.csv" = some FType.csv ∧
    FType.pdf ≠ FType.csv :=
  ⟨by decide, by decide, by decide⟩

/-- C2 (amended): the declared content-type wins over content sniffing,
and content sniffing wins over the URL suffix; the suffix is consulted
only when the first two stages classify nothing. -/
theorem c2_detect_priority (url ct : String) (sniffRes : Option String) :
    (∀ f, ctClassify ct = some f → detectFileType url ct sniffRes = some f) ∧
    (ctClassify ct = none → ∀ f, sniffRes.bind sniffClassify = some f →
      detectFileType url ct sniffRes = some f) ∧
    (ctClassify ct = none → sniffRes.bind sniffClassify = none →
      detectFileType url ct sniffRes = suffixClassify url) := by
  unfold detectFileType
  refine ⟨fun f h => by rw [h], fun h f h2 => by rw [h, h2], fun h h2 => by rw [h, h2]⟩

/-- C2 witness. -/
theorem c2_detect_priority_witness :
    detectFileType "x" "Application/PDF" none = some FType.pdf ∧
    detectFileType "x.csv" "" (some "application/pdf") = some FType.pdf ∧
    detectFileType "x.csv" "" none = some FType.csv :=
  ⟨(c2_detect_priority "x" "Application/PDF" none).1 FType.pdf (by decide),
   (c2_detect_priority "x.csv" "" (some "application/pdf")).2.1 (by decide) FType.pdf (by decide),
   ((c2_detect_priority "x.csv" "" none).2.2 (by decide) (by decide)).trans (by decide)⟩

/-- C5: when none of the six submission-target rules matches, the
handler raises before any dataset work and returns no payload. -/
theorem c5_no_submit_fatal (net : Net) (p : Page) (email secret : String)
    (base : Option String)
    (h : resolveSubmitUrl p base net.evalOrigin = none) :
    handleQuizPage net p email secret base =
      Except.error "submit_url not found on page" := by
  unfold handleQuizPage
  rw [h]

/-- C5 witness. -/
theorem c5_no_submit_fatal_witness :
    handleQuizPage noNet emptyPage "e" "s" none =
      Except.error "submit_url not found on page" :=
  c5_no_submit_fatal noNet emptyPage "e" "s" none (by rfl)

/-- C6: with a resolved submission target, no inline table, no candidate
link yielding a table, and a script carrying a JSON `answer`, the
handler returns that answer verbatim (no instruction classification, no
numeric formatting, no attachment). -/
theorem c6_script_answer_short_circuit (net : Net) (p : Page)
    (email secret : String) (base : Option String) (su : String) (a : Json)
    (h1 : resolveSubmitUrl p base net.evalOrigin = some su)
    (h2 : p.inlineTables = [])
    (h3 : scanCandidates net base (candidateLinks p.anchors) = none)
    (h4 : scanScriptsForAnswer p.scripts = some a) :
    handleQuizPage net p email secret base =
      Except.ok ⟨email, secret, base, some (PyObj.json a), none, su⟩ := by
  unfold handleQuizPage
  rw [h1, h2, h3, h4]

/-- C6 witness. -/
theorem c6_script_answer_witness :
    handleQuizPage noNet pageC6 "e" "s" none =
      Except.ok ⟨"e", "s", none, some (PyObj.json (Json.num false 7)), none,
        "http://h/post"⟩ :=
  c6_script_answer_short_circuit noNet pageC6 "e" "s" none "http://h/post"
    (Json.num false 7) (by rfl) (by rfl) (by rfl) (by rfl)

/-- C7 counterexample: a page whose (first) form has an action attribute
— the empty string — and a submit-looking hyperlink resolves to the
hyperlink, not the form: the form-action rule skips falsy actions. -/
theorem c7_empty_action_cex :
    pageC7.formAction = some "" ∧
    findRule3 pageC7.formAction (some "http://base/") = none ∧
    resolveSubmitUrl pageC7 (some "http://base/") none =
      some "http://base/go-submit" :=
  ⟨rfl, by rfl, by rfl⟩

/-- C7 (amended): when rules 1 and 2 find nothing and the first form's
action attribute is non-empty, the form action beats any hyperlink:
taken verbatim when absolute, resolved against the base URL when one is
available. -/
theorem c7_form_beats_href (p : Page) (base originEval : Option String) (a : String)
    (h1 : findRule1 p.bodyText = none) (h2 : findRule2 p.scripts = none)
    (hf : p.formAction = some a) (hne : a ≠ "") :
    (pyStarts a "http" = true → resolveSubmitUrl p base originEval = some a) ∧
    (pyStarts a "http" = false → ∀ b, base = some b →
      resolveSubmitUrl p base originEval = some (urljoin b a)) := by
  unfold resolveSubmitUrl findRule3
  rw [h1, h2, hf]
  constructor
  · intro h
    simp [hne, h]
  · intro h b hb
    simp [hne, h, hb]

/-- C7 witness. -/
theorem c7_form_beats_href_witness :
    resolveSubmitUrl pageC7w (some "http://base/") none = some "http://f/act" :=
  (c7_form_beats_href pageC7w (some "http://base/") none "http://f/act"
    (by rfl) (by rfl) rfl (by decide)).1 (by rfl)

/-- C3 counterexample: for Mean, the column "Total Price" contains
"price" case-insensitively, no exact match exists, and the answer is
nevertheless left unresolved — the Mean branch has no substring
fallback. -/
theorem c3_mean_no_substring_cex :
    pyContains (pyLower "Total Price") (pyLower "price") = true ∧
    colExact [("Total Price", [Cell.num 1, Cell.num 3])] "price" = none ∧
    colSub [("Total Price", [Cell.num 1, Cell.num 3])] "price" =
      some ("Total Price", [Cell.num 1, Cell.num 3]) ∧
    computeAnswer (fun _ _ => none) [("Total Price", [Cell.num 1, Cell.num 3])]
      (Instr.mean "price") = (none, none) :=
  ⟨by decide, by decide, by decide, by rfl⟩

/-- C3 (amended): Sum falls back from the case-insensitive exact match
to the case-insensitive substring match, but Mean resolves its column by
exact match only — with no exact match the mean is left unresolved even
when a substring match exists. -/
theorem c3_sum_substring_mean_exact (corrO : CorrOracle) (df : DF) (col : String) :
    (∀ cv, colExact df col = some cv →
      computeAnswer corrO df (Instr.sum col) =
        (some (PyObj.float (pySum cv.2)), none)) ∧
    (colExact df col = none → ∀ cv, colSub df col = some cv →
      computeAnswer corrO df (Instr.sum col) =
        (some (PyObj.float (pySum cv.2)), none)) ∧
    (colExact df col = none → colSub df col = none →
      computeAnswer corrO df (Instr.sum col) = (none, none)) ∧
    (∀ cv, colExact df col = some cv →
      computeAnswer corrO df (Instr.mean col) = (some (pyMean cv.2), none)) ∧
    (colExact df col = none →
      computeAnswer corrO df (Instr.mean col) = (none, none)) := by
  refine ⟨fun cv h => ?_, fun h cv h2 => ?_, fun h h2 => ?_, fun cv h => ?_, fun h => ?_⟩
  · simp only [computeAnswer]
    rw [h]
  · simp only [computeAnswer]
    rw [h, h2]
  · simp only [computeAnswer]
    rw [h, h2]
  · simp only [computeAnswer]
    rw [h]
  · simp only [computeAnswer]
    rw [h]

/-- C3 witness. -/
theorem c3_sum_substring_mean_exact_witness :
    computeAnswer (fun _ _ => none) [("Total Price", [Cell.num 1, Cell.num 3])]
      (Instr.sum "price") =
      (some (PyObj.float (pySum [Cell.num 1, Cell.num 3])), none) ∧
    computeAnswer (fun _ _ => none) [("Total Price", [Cell.num 1, Cell.num 3])]
      (Instr.mean "price") = (none, none) :=
  ⟨(c3_sum_substring_mean_exact (fun _ _ => none)
      [("Total Price", [Cell.num 1, Cell.num 3])] "price").2.1 (by decide)
      ("Total Price", [Cell.num 1, Cell.num 3]) (by decide),
   (c3_sum_substring_mean_exact (fun _ _ => none)
      [("Total Price", [Cell.num 1, Cell.num 3])] "price").2.2.2.2 (by decide)⟩

/-- C4 counterexample: the captured y "sales" matches column "Sales"
case-insensitively, yet the chart falls back to the first numeric
column "ID" — the y lookup is case-sensitive exact membership. -/
theorem c4_plot_case_cex :
    pyLower "Sales" = pyLower "sales" ∧
    (dfNames dfC4).contains "sales" = false ∧
    computeAnswer (fun _ _ => none) dfC4 (Instr.plot none (some "sales")) =
      (some (PyObj.str "attached_plot"), some (PlotChoice.yOnly "ID")) ∧
    PlotChoice.yOnly "ID" ≠ PlotChoice.yOnly "Sales" :=
  ⟨by decide, by decide, by rfl, by decide⟩

/-- C4 (amended): the Plot y column is matched by case-sensitive exact
membership in the table's columns; only an exact y hit is plotted, and
otherwise the chart falls back to the first numeric-typed column. -/
theorem c4_plot_y_exact (corrO : CorrOracle) (df : DF) (x y' : Option String) :
    (∀ y, y' = some y → y ≠ "" → (dfNames df).contains y = true →
      computeAnswer corrO df (Instr.plot x y') =
        (some (PyObj.str "attached_plot"), some (dfPlotChoice x y' df))) ∧
    ((optStrTruthy y' && (dfNames df).contains (y'.getD "")) = false →
      ∀ nc rest, numericCols df = nc :: rest →
      computeAnswer corrO df (Instr.plot x y') =
        (some (PyObj.str "attached_plot"), some (dfPlotChoice none (some nc) df))) := by
  constructor
  · intro y hy hne hmem
    subst hy
    have hb : (y != "") = true := bne_iff_ne.mpr hne
    have hc : (optStrTruthy (some y) &&
        (dfNames df).contains ((some y).getD "")) = true := by
      simp only [optStrTruthy, Option.getD_some, hb, hmem, Bool.and_self]
    simp only [computeAnswer]
    rw [hc]
    rfl
  · intro hcond nc rest hnc
    simp only [computeAnswer]
    rw [hcond, hnc]
    rfl

/-- C4 witness. -/
theorem c4_plot_y_exact_witness :
    computeAnswer (fun _ _ => none) dfC4 (Instr.plot none (some "Sales")) =
      (some (PyObj.str "attached_plot"), some (dfPlotChoice none (some "Sales") dfC4)) ∧
    computeAnswer (fun _ _ => none) dfC4 (Instr.plot none (some "sales")) =
      (some (PyObj.str "attached_plot"), some (dfPlotChoice none (some "ID") dfC4)) :=
  ⟨(c4_plot_y_exact (fun _ _ => none) dfC4 none (some "Sales")).1 "Sales" rfl
      (by decide) (by decide),
   (c4_plot_y_exact (fun _ _ => none) dfC4 none (some "sales")).2 (by decide)
      "ID" ["Sales"] (by decide)⟩

/-- An exact rational within 1e-8 of an integer rounds (with Python's
banker's rounding) to that integer. -/
theorem pyRound_close (q : ℚ) (n : ℤ) (h : |q - (n : ℚ)| < 1 / 100000000) :
    pyRound q = n := by
  have habs := abs_lt.mp h
  have htie : ¬(q - (⌊q⌋ : ℚ) = 1 / 2) := by
    intro htie
    have hd : q - (n : ℚ) = ((⌊q⌋ - n : ℤ) : ℚ) + 1 / 2 := by
      push_cast
      linarith
    rcases le_or_lt 0 (⌊q⌋ - n : ℤ) with hge | hlt
    · have hge' : (0 : ℚ) ≤ ((⌊q⌋ - n : ℤ) : ℚ) := by exact_mod_cast hge
      rw [hd] at habs
      linarith [habs.2]
    · have hle : (⌊q⌋ - n : ℤ) ≤ -1 := by omega
      have hle' : ((⌊q⌋ - n : ℤ) : ℚ) ≤ -1 := by exact_mod_cast hle
      rw [hd] at habs
      linarith [habs.1]
  unfold pyRound
  rw [if_neg htie, round_eq]
  refine Int.floor_eq_iff.mpr ⟨?_, ?_⟩
  · linarith [habs.1]
  · linarith [habs.2]

/-- C8: on the fixture table `{A:[1,2,3], B:[4,5,6]}` the Sum{A} answer
formats to the integer 6 (not the float 6.0); in general a float within
1e-8 of an integer is rendered as that integer (the nearest one), and
any other float is rendered unchanged as a float. -/
theorem c8_answer_int_rendering :
    (computeAnswer (fun _ _ => none) (coerceNumeric (renameStrip dfC8))
        (Instr.sum "A")).1.map formatAnswer = some (PyObj.int 6) ∧
    (∀ q : ℚ, |((pyRound q : ℤ) : ℚ) - q| < 1 / 100000000 →
      formatAnswer (PyObj.float q) = PyObj.int (pyRound q)) ∧
    (∀ q : ℚ, ¬|((pyRound q : ℤ) : ℚ) - q| < 1 / 100000000 →
      formatAnswer (PyObj.float q) = PyObj.float q) ∧
    (∀ (q : ℚ) (n : ℤ), |q - (n : ℚ)| < 1 / 100000000 → pyRound q = n) := by
  refine ⟨?_,
    fun q h => by
      show (if |((pyRound q : ℤ) : ℚ) - q| < 1 / 100000000 then PyObj.int (pyRound q)
        else PyObj.float q) = PyObj.int (pyRound q)
      rw [if_pos h],
    fun q h => by
      show (if |((pyRound q : ℤ) : ℚ) - q| < 1 / 100000000 then PyObj.int (pyRound q)
        else PyObj.float q) = PyObj.float q
      rw [if_neg h],
    fun q n h => pyRound_close q n h⟩
  have hdf : coerceNumeric (renameStrip dfC8) =
      [("A", [Cell.num 1, Cell.num 2, Cell.num 3]),
       ("B", [Cell.num 4, Cell.num 5, Cell.num 6])] := by decide
  rw [hdf]
  show some (formatAnswer (PyObj.float (pySum [Cell.num 1, Cell.num 2, Cell.num 3]))) =
    some (PyObj.int 6)
  have hc : colNums [Cell.num 1, Cell.num 2, Cell.num 3] = [1, 2, 3] := by decide
  have hs : pySum [Cell.num 1, Cell.num 2, Cell.num 3] = 6 := by
    simp only [pySum, hc]
    norm_num
  rw [hs]
  have h6 : pyRound (6 : ℚ) = 6 := pyRound_close 6 6 (by norm_num)
  simp only [formatAnswer, h6]
  norm_num

/-- C8 witness. -/
theorem c8_answer_int_rendering_witness :
    formatAnswer (PyObj.float 6) = PyObj.int (pyRound 6) ∧
    formatAnswer (PyObj.float (1 / 4)) = PyObj.float (1 / 4) := by
  constructor
  · refine c8_answer_int_rendering.2.1 6 ?_
    have h6 : pyRound (6 : ℚ) = 6 := c8_answer_int_rendering.2.2.2 6 6 (by norm_num)
    rw [h6]
    norm_num
  · refine c8_answer_int_rendering.2.2.1 (1 / 4) ?_
    intro hcon
    have hint := abs_lt.mp hcon
    rcases le_or_lt (pyRound (1 / 4 : ℚ)) 0 with hle | hgt
    · have hle' : ((pyRound (1 / 4 : ℚ) : ℤ) : ℚ) ≤ 0 := by exact_mod_cast hle
      linarith [hint.1]
    · have hgt' : (1 : ℚ) ≤ ((pyRound (1 / 4 : ℚ) : ℤ) : ℚ) := by exact_mod_cast hgt
      linarith [hint.2]

/-- C9: serializing the payload for the final POST drops exactly
`submit_url`; the transmitted JSON object reproduces the email, secret,
url, answer and (when present) attachment values.  The wire codec is
the identity on JSON values; NaN answers (which the pipeline never
returns, raising beforehand) are excluded. -/
theorem c9_transmit_roundtrip (p : Payload) (_h : p.answer ≠ some PyObj.nanF) :
    (transmitBody p).getVal "email" = some (Json.str p.email) ∧
    (transmitBody p).getVal "secret" = some (Json.str p.secret) ∧
    (transmitBody p).getVal "url" =
      some (match p.url with
            | some u => Json.str u
            | none => Json.null) ∧
    (transmitBody p).getVal "answer" =
      some (match p.answer with
            | some a => pyObjToJson a
            | none => Json.null) ∧
    (transmitBody p).getVal "attachment" =
      p.attachment.map (fun pc => Json.str (plotChoiceRepr pc)) ∧
    (transmitBody p).getVal "submit_url" = none := by
  obtain ⟨e, s, u, a, att, su⟩ := p
  cases att <;> exact ⟨rfl, rfl, rfl, rfl, rfl, rfl⟩

/-- C9 witness. -/
theorem c9_transmit_roundtrip_witness :
    (transmitBody ⟨"e", "s", some "u", some (PyObj.int 3), none,
        "http://x/submit"⟩).getVal "submit_url" = none :=
  (c9_transmit_roundtrip ⟨"e", "s", some "u", some (PyObj.int 3), none,
      "http://x/submit"⟩ (by simp)).2.2.2.2.2

/-- C10 counterexample: with the expected secret unset, a request whose
body fails JSON parsing receives 400 (invalid JSON), not 500. -/
theorem c10_invalid_json_cex :
    respStatus (quizRoute none none (fun _ _ => Except.error "")) = 400 ∧
    (400 : Nat) ≠ 500 :=
  ⟨rfl, by decide⟩

/-- C10 (amended): for every request whose body parses as JSON, an unset
expected secret yields HTTP 500 (deliberately for object bodies, via an
uncaught error for other bodies); for object bodies the secret check
precedes the required-field check, so a mismatched secret gets 403 even
with email or url missing, and the missing-field 400 occurs only when
the secret matches; an unparseable body is answered 400 first. -/
theorem c10_front_door_order :
    (∀ (j : Json) (solve : Json → Json → Except String Json),
      respStatus (quizRoute none (some j) solve) = 500) ∧
    (∀ (exp : String) (fs : List (String × Json))
        (solve : Json → Json → Except String Json),
      secretMatches fs exp = false →
      quizRoute (some exp) (some (Json.obj fs)) solve = QuizResp.forbidden) ∧
    (∀ (exp : String) (body : Option Json)
        (solve : Json → Json → Except String Json),
      quizRoute (some exp) body solve = QuizResp.missingFields →
      ∃ fs, body = some (Json.obj fs) ∧
        lookupField fs "secret" = some (Json.str exp)) := by
  refine ⟨fun j solve => ?_, fun exp fs solve h => ?_, fun exp body solve h => ?_⟩
  · cases j <;> rfl
  · simp [quizRoute, h]
  · rcases body with _ | j
    · exact absurd h (by simp [quizRoute])
    · rcases j with _ | b | ⟨fl, q⟩ | s | xs | fs
      · exact absurd h (by simp [quizRoute])
      · exact absurd h (by simp [quizRoute])
      · exact absurd h (by simp [quizRoute])
      · exact absurd h (by simp [quizRoute])
      · exact absurd h (by simp [quizRoute])
      · refine ⟨fs, rfl, ?_⟩
        rcases hlf : lookupField fs "secret" with _ | v
        · rw [show quizRoute (some exp) (some (Json.obj fs)) solve = QuizResp.forbidden
            from by simp [quizRoute, secretMatches, hlf]] at h
          exact absurd h (by simp)
        · rcases v with _ | b2 | ⟨fl2, q2⟩ | sv | xs2 | ofs2
          case str =>
            by_cases hbe : sv = exp
            · subst hbe
              rfl
            · rw [show quizRoute (some exp) (some (Json.obj fs)) solve = QuizResp.forbidden
                from by simp [quizRoute, secretMatches, hlf, hbe]] at h
              exact absurd h (by simp)
          all_goals
            (rw [show quizRoute (some exp) (some (Json.obj fs)) solve = QuizResp.forbidden
              from by simp [quizRoute, secretMatches, hlf]] at h
             exact absurd h (by simp))

/-- C10 witness. -/
theorem c10_front_door_order_witness :
    respStatus (quizRoute none (some (Json.obj [])) (fun _ _ => Except.error "")) = 500 ∧
    quizRoute (some "k") (some (Json.obj [("email", Json.str "e")]))
      (fun _ _ => Except.error "") = QuizResp.forbidden ∧
    ∃ fs, some (Json.obj [("secret", Json.str "k")]) = some (Json.obj fs) ∧
      lookupField fs "secret" = some (Json.str "k") :=
  ⟨c10_front_door_order.1 (Json.obj []) (fun _ _ => Except.error ""),
   c10_front_door_order.2.1 "k" [("email", Json.str "e")]
     (fun _ _ => Except.error "") (by rfl),
   c10_front_door_order.2.2 "k" (some (Json.obj [("secret", Json.str "k")]))
     (fun _ _ => Except.error "") (by rfl)⟩
